import Mathlib

/-!
Shallow embedding of the distribution-fitting and variate-generation module
(`explorer/stats.py`) of the `edation` repository.

The module delegates parameter estimation and sampling to an external
statistics library (scipy).  That library is not part of the repository, so it
is modelled as an explicit environment `ScipyEnv`: a `fit` routine (family
name, data → fitted parameter tuple or a raised exception) and an `rvs`
routine (family name, parameters, size → variates).  All of the repository's
own control flow — the registry `DISTRIBUTIONS`, the module-level generator
functions, `get_params`'s try/except, and the dispatcher `DistGen.__call__`
with its KeyError-to-NotImplementedError translation — is translated
faithfully from the source.  Sample values are modelled as rationals.
-/

instance {ε α : Type} [DecidableEq ε] [DecidableEq α] : DecidableEq (Except ε α)
  | .ok a, .ok b =>
      if h : a = b then .isTrue (by rw [h]) else .isFalse (by simp [h])
  | .ok _, .error _ => .isFalse (by simp)
  | .error _, .ok _ => .isFalse (by simp)
  | .error e, .error f =>
      if h : e = f then .isTrue (by rw [h]) else .isFalse (by simp [h])

namespace Stats

/-- Python exceptions surfaced by the module.  `fitError` models the
`FitError` described by the specification; the source code never constructs
it (no such class exists in the repository). -/
inductive PyError where
  | keyError (key : String)
  | attributeError (msg : String)
  | valueError (msg : String)
  | notImplementedError (msg : String)
  | fitError (msg : String)
  deriving DecidableEq, Repr

/-- The external statistics library (scipy), abstracted: `fit famName data`
is the family's maximum-likelihood fit (returning the parameter tuple or
raising), `rvs famName params size` draws `size` variates. -/
structure ScipyEnv where
  fit : String → List ℚ → Except PyError (List ℚ)
  rvs : String → List ℚ → Nat → List ℚ

/-- The scipy families used by the module, identified by their scipy names;
`fit` for a location-scale family returns (loc, scale), and for a
one-shape-parameter family returns (shape, loc, scale). -/
def scipyFitArity (fam : String) : Nat :=
  if fam = "chi2" ∨ fam = "gamma" ∨ fam = "lognorm" ∨ fam = "pareto" then 3 else 2

/-- The distribution registry `DISTRIBUTIONS` of `stats.py`: distribution
name → scipy family.  Exactly six entries; "lognorm" and "pareto" are absent. -/
def DISTRIBUTIONS : List (String × String) :=
  [("normal", "norm"), ("chi2", "chi2"), ("exponential", "expon"),
   ("gamma", "gamma"), ("logistic", "logistic"), ("uniform", "uniform")]

/-- `get_params(data, distribution)`: indexes `DISTRIBUTIONS` (a missing key
raises KeyError), then calls the family's `fit`.  The `except AttributeError`
clause logs a message and re-raises the very same exception object
(`raise e`); every other exception propagates unchanged. -/
def get_params (env : ScipyEnv) (data : List ℚ) (distribution : String) :
    Except PyError (List ℚ) :=
  match DISTRIBUTIONS.lookup distribution with
  | none => .error (.keyError distribution)
  | some fam =>
      match env.fit fam data with
      | .ok params => .ok params
      | .error e =>
          match e with
          | .attributeError m => .error (.attributeError m)
          | e => .error e

/-- `normal(data)`: fit, unpack `(loc, scale)`, sample `len(data)` variates. -/
def normal (env : ScipyEnv) (data : List ℚ) : Except PyError (List ℚ) :=
  match get_params env data "normal" with
  | .error e => .error e
  | .ok params =>
      match params with
      | [loc, scale] => .ok (env.rvs "norm" [loc, scale] data.length)
      | _ => .error (.valueError "cannot unpack fitted parameters")

/-- `chi2(data)`: fit, unpack `(a, loc, scale)`, then `df = 2 * a` and sample
with that doubled value as the degrees-of-freedom argument. -/
def chi2 (env : ScipyEnv) (data : List ℚ) : Except PyError (List ℚ) :=
  match get_params env data "chi2" with
  | .error e => .error e
  | .ok params =>
      match params with
      | [a, loc, scale] => .ok (env.rvs "chi2" [2 * a, loc, scale] data.length)
      | _ => .error (.valueError "cannot unpack fitted parameters")

/-- `exponential(data)`: fit, unpack `(loc, scale)`, sample. -/
def exponential (env : ScipyEnv) (data : List ℚ) : Except PyError (List ℚ) :=
  match get_params env data "exponential" with
  | .error e => .error e
  | .ok params =>
      match params with
      | [loc, scale] => .ok (env.rvs "expon" [loc, scale] data.length)
      | _ => .error (.valueError "cannot unpack fitted parameters")

/-- `gamma(data)`: fit, unpack `(a, loc, scale)`, sample. -/
def gamma (env : ScipyEnv) (data : List ℚ) : Except PyError (List ℚ) :=
  match get_params env data "gamma" with
  | .error e => .error e
  | .ok params =>
      match params with
      | [a, loc, scale] => .ok (env.rvs "gamma" [a, loc, scale] data.length)
      | _ => .error (.valueError "cannot unpack fitted parameters")

/-- `logistic(data)`: fit, unpack `(loc, scale)`, sample. -/
def logistic (env : ScipyEnv) (data : List ℚ) : Except PyError (List ℚ) :=
  match get_params env data "logistic" with
  | .error e => .error e
  | .ok params =>
      match params with
      | [loc, scale] => .ok (env.rvs "logistic" [loc, scale] data.length)
      | _ => .error (.valueError "cannot unpack fitted parameters")

/-- `lognorm(data)`: fit via `get_params(..., "lognorm")`, unpack
`(s, loc, scale)`, sample. -/
def lognorm (env : ScipyEnv) (data : List ℚ) : Except PyError (List ℚ) :=
  match get_params env data "lognorm" with
  | .error e => .error e
  | .ok params =>
      match params with
      | [s, loc, scale] => .ok (env.rvs "lognorm" [s, loc, scale] data.length)
      | _ => .error (.valueError "cannot unpack fitted parameters")

/-- `pareto(data)`: fit via `get_params(..., "pareto")`, unpack
`(b, loc, scale)`, sample. -/
def pareto (env : ScipyEnv) (data : List ℚ) : Except PyError (List ℚ) :=
  match get_params env data "pareto" with
  | .error e => .error e
  | .ok params =>
      match params with
      | [b, loc, scale] => .ok (env.rvs "pareto" [b, loc, scale] data.length)
      | _ => .error (.valueError "cannot unpack fitted parameters")

/-- `uniform(data)`: fit, unpack `(loc, scale)`, sample. -/
def uniform (env : ScipyEnv) (data : List ℚ) : Except PyError (List ℚ) :=
  match get_params env data "uniform" with
  | .error e => .error e
  | .ok params =>
      match params with
      | [loc, scale] => .ok (env.rvs "uniform" [loc, scale] data.length)
      | _ => .error (.valueError "cannot unpack fitted parameters")

/-- The dispatch table `DistGen.__GENERATORS`: six entries; the module-level
functions `lognorm` and `pareto` are not registered. -/
def DistGen.GENERATORS :
    List (String × (ScipyEnv → List ℚ → Except PyError (List ℚ))) :=
  [("normal", normal), ("chi2", chi2), ("exponential", exponential),
   ("gamma", gamma), ("logistic", logistic), ("uniform", uniform)]

/-- `DistGen.__call__(data, distribution)`: the try block indexes the
dispatch table and calls the generator; any KeyError raised in the block
(from the table lookup, or from inside the generator) is replaced by
`NotImplementedError(f"{distribution} is not supported.")`; every other
outcome passes through unchanged. -/
def DistGen.call (env : ScipyEnv) (data : List ℚ) (distribution : String) :
    Except PyError (List ℚ) :=
  let body : Except PyError (List ℚ) :=
    match DistGen.GENERATORS.lookup distribution with
    | none => .error (.keyError distribution)
    | some g => g env data
  match body with
  | .error (.keyError _) =>
      .error (.notImplementedError (distribution ++ " is not supported."))
  | r => r

/-- The except clause of `DistGen.__call__` in isolation: a KeyError raised
by the try block is replaced by NotImplementedError, every other outcome
passes through.  `DistGen.call env data d` is definitionally `rewrap d`
applied to the try block's outcome. -/
def rewrap (distribution : String) (r : Except PyError (List ℚ)) :
    Except PyError (List ℚ) :=
  match r with
  | .error (.keyError _) =>
      .error (.notImplementedError (distribution ++ " is not supported."))
  | r => r

/-- A benign library behaviour: every fit succeeds (returning a tuple of ones
of the family's arity) and `rvs` returns the requested number of zeros. -/
def sampleEnv : ScipyEnv where
  fit := fun fam _ => .ok (List.replicate (scipyFitArity fam) 1)
  rvs := fun _ _ n => List.replicate n 0

/-- A library behaviour that reveals the arguments of the sampling call: the
chi-squared fit returns the parameter tuple (5, 0, 1) and `rvs` echoes back
the parameter tuple it was handed. -/
def echoEnv : ScipyEnv where
  fit := fun fam _ =>
    if fam = "chi2" then .ok [5, 0, 1]
    else .ok (List.replicate (scipyFitArity fam) 1)
  rvs := fun _ params _ => params

/-- A library behaviour whose fit always raises `AttributeError("fit failed")`. -/
def attrEnv : ScipyEnv where
  fit := fun _ _ => .error (.attributeError "fit failed")
  rvs := fun _ _ _ => []

/-- Minimum of a sample, as `np.min` / `data.min()` on a non-empty array
(0 on the empty list, a case the callers below never use). -/
def listMin : List ℚ → ℚ
  | [] => 0
  | x :: xs => xs.foldl min x

/-- Maximum of a sample, as `np.max` / `data.max()` on a non-empty array
(0 on the empty list, a case the callers below never use). -/
def listMax : List ℚ → ℚ
  | [] => 0
  | x :: xs => xs.foldl max x

/-- Modelled from the spec: the maximum-likelihood fit of the uniform family
performed by the external statistics library (`scipy.stats.uniform.fit`,
which is not part of src/).  Following the spec's words — "fitted location ≈
`min(s)`, fitted scale ≈ `max(s) - min(s)`" and "implementers may use any
standard MLE routine for the family" — the standard MLE for the uniform
family is exactly location = sample minimum, scale = sample range. -/
def uniformFit (data : List ℚ) : List ℚ :=
  [listMin data, listMax data - listMin data]

/-- A library whose uniform fit is the spec-modelled `uniformFit` and whose
sampling routine is an arbitrary `rvsImpl`; every other family's fit
succeeds with a tuple of ones. -/
def uniformEnv (rvsImpl : String → List ℚ → Nat → List ℚ) : ScipyEnv where
  fit := fun fam data =>
    if fam = "uniform" then .ok (uniformFit data)
    else .ok (List.replicate (scipyFitArity fam) 1)
  rvs := rvsImpl

/-- Helper: a key outside an association list's key set looks up to `none`. -/
theorem lookup_eq_none_of_not_mem_keys {β : Type} (d : String) :
    ∀ l : List (String × β), d ∉ l.map Prod.fst → l.lookup d = none
  | [], _ => rfl
  | (k, v) :: tl, h => by
      have hk : ¬d = k := fun hdk => h (by simp [hdk])
      have hb : (d == k) = false := beq_eq_false_iff_ne.mpr hk
      have htl : d ∉ tl.map Prod.fst := fun hm => h (by simp [hm])
      simp [List.lookup, hb, lookup_eq_none_of_not_mem_keys d tl htl]

/-- Helper: every lookup in the dispatch table is `none` or one of the six
registered generator functions. -/
theorem generators_lookup (d : String) :
    DistGen.GENERATORS.lookup d = none
    ∨ DistGen.GENERATORS.lookup d = some normal
    ∨ DistGen.GENERATORS.lookup d = some chi2
    ∨ DistGen.GENERATORS.lookup d = some exponential
    ∨ DistGen.GENERATORS.lookup d = some gamma
    ∨ DistGen.GENERATORS.lookup d = some logistic
    ∨ DistGen.GENERATORS.lookup d = some uniform := by
  by_cases h1 : d = "normal"
  · subst h1; exact Or.inr (Or.inl rfl)
  by_cases h2 : d = "chi2"
  · subst h2; exact Or.inr (Or.inr (Or.inl rfl))
  by_cases h3 : d = "exponential"
  · subst h3; exact Or.inr (Or.inr (Or.inr (Or.inl rfl)))
  by_cases h4 : d = "gamma"
  · subst h4; exact Or.inr (Or.inr (Or.inr (Or.inr (Or.inl rfl))))
  by_cases h5 : d = "logistic"
  · subst h5; exact Or.inr (Or.inr (Or.inr (Or.inr (Or.inr (Or.inl rfl)))))
  by_cases h6 : d = "uniform"
  · subst h6; exact Or.inr (Or.inr (Or.inr (Or.inr (Or.inr (Or.inr rfl)))))
  exact Or.inl (lookup_eq_none_of_not_mem_keys d _
    (by simp [DistGen.GENERATORS, h1, h2, h3, h4, h5, h6]))

/-- Helper: a successful `normal` call returns exactly `len(data)` variates
whenever the library's `rvs` honours its size argument. -/
theorem normal_ok_length (env : ScipyEnv) (data out : List ℚ)
    (hrvs : ∀ fam p n, (env.rvs fam p n).length = n)
    (h : normal env data = .ok out) : out.length = data.length := by
  unfold normal at h
  cases hg : get_params env data "normal" with
  | error e => rw [hg] at h; exact Except.noConfusion h
  | ok params =>
      rw [hg] at h
      rcases params with _ | ⟨loc, _ | ⟨scale, _ | ⟨y, rest⟩⟩⟩
      · exact Except.noConfusion h
      · exact Except.noConfusion h
      · injection h with h'; rw [← h']; exact hrvs "norm" [loc, scale] data.length
      · exact Except.noConfusion h

/-- Helper: same as `normal_ok_length`, for `chi2`. -/
theorem chi2_ok_length (env : ScipyEnv) (data out : List ℚ)
    (hrvs : ∀ fam p n, (env.rvs fam p n).length = n)
    (h : chi2 env data = .ok out) : out.length = data.length := by
  unfold chi2 at h
  cases hg : get_params env data "chi2" with
  | error e => rw [hg] at h; exact Except.noConfusion h
  | ok params =>
      rw [hg] at h
      rcases params with _ | ⟨a, _ | ⟨loc, _ | ⟨scale, _ | ⟨y, rest⟩⟩⟩⟩
      · exact Except.noConfusion h
      · exact Except.noConfusion h
      · exact Except.noConfusion h
      · injection h with h'; rw [← h']
        exact hrvs "chi2" [2 * a, loc, scale] data.length
      · exact Except.noConfusion h

/-- Helper: same as `normal_ok_length`, for `exponential`. -/
theorem exponential_ok_length (env : ScipyEnv) (data out : List ℚ)
    (hrvs : ∀ fam p n, (env.rvs fam p n).length = n)
    (h : exponential env data = .ok out) : out.length = data.length := by
  unfold exponential at h
  cases hg : get_params env data "exponential" with
  | error e => rw [hg] at h; exact Except.noConfusion h
  | ok params =>
      rw [hg] at h
      rcases params with _ | ⟨loc, _ | ⟨scale, _ | ⟨y, rest⟩⟩⟩
      · exact Except.noConfusion h
      · exact Except.noConfusion h
      · injection h with h'; rw [← h']; exact hrvs "expon" [loc, scale] data.length
      · exact Except.noConfusion h

/-- Helper: same as `normal_ok_length`, for `gamma`. -/
theorem gamma_ok_length (env : ScipyEnv) (data out : List ℚ)
    (hrvs : ∀ fam p n, (env.rvs fam p n).length = n)
    (h : gamma env data = .ok out) : out.length = data.length := by
  unfold gamma at h
  cases hg : get_params env data "gamma" with
  | error e => rw [hg] at h; exact Except.noConfusion h
  | ok params =>
      rw [hg] at h
      rcases params with _ | ⟨a, _ | ⟨loc, _ | ⟨scale, _ | ⟨y, rest⟩⟩⟩⟩
      · exact Except.noConfusion h
      · exact Except.noConfusion h
      · exact Except.noConfusion h
      · injection h with h'; rw [← h']
        exact hrvs "gamma" [a, loc, scale] data.length
      · exact Except.noConfusion h

/-- Helper: same as `normal_ok_length`, for `logistic`. -/
theorem logistic_ok_length (env : ScipyEnv) (data out : List ℚ)
    (hrvs : ∀ fam p n, (env.rvs fam p n).length = n)
    (h : logistic env data = .ok out) : out.length = data.length := by
  unfold logistic at h
  cases hg : get_params env data "logistic" with
  | error e => rw [hg] at h; exact Except.noConfusion h
  | ok params =>
      rw [hg] at h
      rcases params with _ | ⟨loc, _ | ⟨scale, _ | ⟨y, rest⟩⟩⟩
      · exact Except.noConfusion h
      · exact Except.noConfusion h
      · injection h with h'; rw [← h']; exact hrvs "logistic" [loc, scale] data.length
      · exact Except.noConfusion h

/-- Helper: same as `normal_ok_length`, for `uniform`. -/
theorem uniform_ok_length (env : ScipyEnv) (data out : List ℚ)
    (hrvs : ∀ fam p n, (env.rvs fam p n).length = n)
    (h : uniform env data = .ok out) : out.length = data.length := by
  unfold uniform at h
  cases hg : get_params env data "uniform" with
  | error e => rw [hg] at h; exact Except.noConfusion h
  | ok params =>
      rw [hg] at h
      rcases params with _ | ⟨loc, _ | ⟨scale, _ | ⟨y, rest⟩⟩⟩
      · exact Except.noConfusion h
      · exact Except.noConfusion h
      · injection h with h'; rw [← h']; exact hrvs "uniform" [loc, scale] data.length
      · exact Except.noConfusion h

/-- Helper: a successful dispatcher call returns exactly `len(data)` variates
whenever the library's `rvs` honours its size argument. -/
theorem rewrap_ok (d : String) (r : Except PyError (List ℚ)) (out : List ℚ)
    (h : rewrap d r = .ok out) : r = .ok out := by
  cases r with
  | ok v => exact h
  | error e => cases e <;> exact Except.noConfusion h

/-- Helper: a successful dispatcher call returns exactly `len(data)` variates
whenever the library's `rvs` honours its size argument. -/
theorem call_ok_length (env : ScipyEnv) (data out : List ℚ) (d : String)
    (hrvs : ∀ fam p n, (env.rvs fam p n).length = n)
    (h : DistGen.call env data d = .ok out) : out.length = data.length := by
  unfold DistGen.call at h
  rcases generators_lookup d with hl | hl | hl | hl | hl | hl | hl <;> rw [hl] at h
  · exact Except.noConfusion h
  · exact normal_ok_length env data out hrvs (rewrap_ok d _ out h)
  · exact chi2_ok_length env data out hrvs (rewrap_ok d _ out h)
  · exact exponential_ok_length env data out hrvs (rewrap_ok d _ out h)
  · exact gamma_ok_length env data out hrvs (rewrap_ok d _ out h)
  · exact logistic_ok_length env data out hrvs (rewrap_ok d _ out h)
  · exact uniform_ok_length env data out hrvs (rewrap_ok d _ out h)

/-- C1: the claim says all eight spec-supported names {normal, chi2,
exponential, gamma, logistic, uniform, lognorm, pareto} are registered in
both the distribution registry and the generator dispatch table, so the
dispatcher resolves each of them and returns a synthetic array.  In the code
"lognorm" and "pareto" are registered in neither table: for every library
behaviour and every sample the dispatcher raises NotImplementedError for
them.  (The module nevertheless defines and documents `lognorm` and `pareto`
generator functions, which can never succeed — the registration was
evidently forgotten, so the code, not the claim, is at fault.) -/
theorem c1_lognorm_pareto_unregistered :
    (∀ env data, DistGen.call env data "lognorm" =
      .error (.notImplementedError "lognorm is not supported."))
    ∧ (∀ env data, DistGen.call env data "pareto" =
      .error (.notImplementedError "pareto is not supported."))
    ∧ DISTRIBUTIONS.lookup "lognorm" = none
    ∧ DISTRIBUTIONS.lookup "pareto" = none
    ∧ DistGen.GENERATORS.lookup "lognorm" = none
    ∧ DistGen.GENERATORS.lookup "pareto" = none :=
  ⟨fun _ _ => rfl, fun _ _ => rfl, rfl, rfl, rfl, rfl⟩

/-- C2: the claim says the chi2 generator passes the fitted shape parameter
unchanged as the degrees-of-freedom argument of the sampling call.  The code
computes `df = 2 * a` first: with a library whose chi-squared fit returns the
parameter tuple (5, 0, 1) and whose sampling routine echoes back the
parameters it receives, the sampling call receives (10, 0, 1), not the
fitted tuple (5, 0, 1). -/
theorem c2_chi2_doubles_fitted_shape :
    echoEnv.fit "chi2" [1, 2, 3] = .ok [5, 0, 1]
    ∧ chi2 echoEnv [1, 2, 3] = .ok [10, 0, 1]
    ∧ chi2 echoEnv [1, 2, 3] ≠ .ok [5, 0, 1] := by
  have h : chi2 echoEnv [1, 2, 3] = .ok [2 * (5 : ℚ), 0, 1] := rfl
  refine ⟨rfl, ?_, ?_⟩
  · rw [h]; norm_num
  · rw [h]; norm_num

/-- C3 counterexample: the claim says a failing fit is re-raised as a
`FitError` whose message names the distribution and is never propagated
unwrapped.  With a library whose fit raises AttributeError("fit failed") on
the degenerate sample [1, 1, 1], `get_params` surfaces exactly that original
exception — not a FitError, and with a message that does not mention the
distribution: the `except AttributeError as e` clause ends in `raise e`. -/
theorem c3_fit_failure_unwrapped_counterexample :
    get_params attrEnv [1, 1, 1] "normal" = .error (.attributeError "fit failed")
    ∧ attrEnv.fit "norm" [1, 1, 1] = .error (.attributeError "fit failed") :=
  ⟨rfl, rfl⟩

/-- C3 amended: every error raised by `get_params` is either the KeyError
from indexing `DISTRIBUTIONS` with an unregistered name, or exactly the
exception raised by the underlying fit routine, propagated unchanged (the
AttributeError handler logs a message naming the distribution but re-raises
the very same exception); no `FitError` wrapper is ever constructed and no
failure is swallowed. -/
theorem c3_get_params_propagates_unwrapped (env : ScipyEnv) (data : List ℚ)
    (d : String) (e : PyError) (h : get_params env data d = .error e) :
    (DISTRIBUTIONS.lookup d = none ∧ e = .keyError d)
    ∨ ∃ fam, DISTRIBUTIONS.lookup d = some fam ∧ env.fit fam data = .error e := by
  unfold get_params at h
  cases hl : DISTRIBUTIONS.lookup d with
  | none =>
      rw [hl] at h
      injection h with h'
      exact Or.inl ⟨rfl, h'.symm⟩
  | some fam =>
      rw [hl] at h
      have h2 : (match env.fit fam data with
                 | Except.ok params => Except.ok params
                 | Except.error e =>
                   match e with
                   | PyError.attributeError m =>
                       Except.error (PyError.attributeError m)
                   | e => Except.error e) = Except.error e := h
      cases hf : env.fit fam data with
      | ok params => rw [hf] at h2; exact Except.noConfusion h2
      | error e' =>
          rw [hf] at h2
          cases e' <;>
            (injection h2 with h';
             exact Or.inr ⟨fam, rfl, by rw [hf]; exact congrArg Except.error h'⟩)

/-- C3 witness: the amended statement applied to the concrete failing fit of
`c3_fit_failure_unwrapped_counterexample`. -/
theorem c3_get_params_propagates_unwrapped_witness :
    (DISTRIBUTIONS.lookup "normal" = none
      ∧ PyError.attributeError "fit failed" = .keyError "normal")
    ∨ ∃ fam, DISTRIBUTIONS.lookup "normal" = some fam
      ∧ attrEnv.fit fam [1, 1, 1] = .error (.attributeError "fit failed") :=
  c3_get_params_propagates_unwrapped attrEnv [1, 1, 1] "normal"
    (.attributeError "fit failed") rfl

/-- C9: calling the module-level generator functions `lognorm` or `pareto`
directly raises an unhandled KeyError for every library behaviour and every
sample, because the keys "lognorm" and "pareto" are absent from the
`DISTRIBUTIONS` mapping that `get_params` indexes (and KeyError is not the
AttributeError that `get_params` catches). -/
theorem c9_lognorm_pareto_keyerror :
    (∀ env data, lognorm env data = .error (.keyError "lognorm"))
    ∧ (∀ env data, pareto env data = .error (.keyError "pareto"))
    ∧ DISTRIBUTIONS.lookup "lognorm" = none
    ∧ DISTRIBUTIONS.lookup "pareto" = none :=
  ⟨fun _ _ => rfl, fun _ _ => rfl, rfl, rfl⟩

/-- C4: whenever the dispatcher returns an array at all — in particular for
every supported distribution name and every sample whose fit succeeds — that
array has exactly the length of the input sample, provided the library's
sampling routine honours its size argument (scipy's documented `rvs`
contract); every generator requests `size = len(data)`. -/
theorem c4_generate_preserves_length (env : ScipyEnv) (data out : List ℚ)
    (d : String) (hrvs : ∀ fam p n, (env.rvs fam p n).length = n)
    (h : DistGen.call env data d = .ok out) : out.length = data.length :=
  call_ok_length env data out d hrvs h

/-- C4 witness: dispatching "normal" on the sample [1, 2, 3] under the
benign library behaviour returns the three variates [0, 0, 0]. -/
theorem c4_generate_preserves_length_witness :
    DistGen.call sampleEnv [1, 2, 3] "normal" = .ok [0, 0, 0]
    ∧ List.length [(0 : ℚ), 0, 0] = List.length [(1 : ℚ), 2, 3] :=
  ⟨rfl, c4_generate_preserves_length sampleEnv [1, 2, 3] [0, 0, 0] "normal"
    (fun _ _ n => List.length_replicate n 0) rfl⟩

/-- C5 counterexample: the claim says the dispatcher raises an error on an
empty sample for every supported name and never silently returns an empty
array.  The dispatcher contains no emptiness check: under a library
behaviour whose fit succeeds on the empty sample (as scipy's `norm.fit`
does, returning NaN parameters without raising), the dispatcher silently
returns the empty array. -/
theorem c5_generate_empty_counterexample :
    DistGen.call sampleEnv [] "normal" = .ok [] := rfl

/-- C5 amended: the dispatcher performs no empty-sample validation of its
own; an error on an empty sample can only originate inside the underlying
library's fit or sampling routines, and when those succeed the dispatcher
silently returns the empty array — any array it returns for an empty sample
is necessarily empty (never a non-empty substitute). -/
theorem c5_generate_empty_silent (env : ScipyEnv) (out : List ℚ) (d : String)
    (hrvs : ∀ fam p n, (env.rvs fam p n).length = n)
    (h : DistGen.call env [] d = .ok out) : out = [] :=
  List.length_eq_zero.mp (call_ok_length env [] out d hrvs h)

/-- C5 witness: the amended statement applied to the benign library
behaviour, where dispatching "normal" on the empty sample returns `ok []`. -/
theorem c5_generate_empty_silent_witness :
    DistGen.call sampleEnv [] "normal" = .ok [] ∧ ([] : List ℚ) = [] :=
  ⟨rfl, c5_generate_empty_silent sampleEnv [] "normal"
    (fun _ _ n => List.length_replicate n 0) rfl⟩

/-- C6: for every library behaviour, every sample and every distribution
name outside the dispatch table's key set, the dispatcher raises
NotImplementedError with the offending name embedded at the start of the
message (`f"{distribution} is not supported."`); no default distribution is
substituted. -/
theorem c6_generate_unsupported_raises (env : ScipyEnv) (data : List ℚ)
    (d : String) (h : d ∉ DistGen.GENERATORS.map Prod.fst) :
    DistGen.call env data d =
      .error (.notImplementedError (d ++ " is not supported.")) := by
  unfold DistGen.call
  rw [lookup_eq_none_of_not_mem_keys d _ h]

/-- C6 witness: the name "not_a_real_distribution" is not registered and the
dispatcher raises NotImplementedError naming it. -/
theorem c6_generate_unsupported_raises_witness :
    "not_a_real_distribution" ∉ DistGen.GENERATORS.map Prod.fst
    ∧ DistGen.call sampleEnv [1, 2, 3] "not_a_real_distribution" =
      .error (.notImplementedError
        ("not_a_real_distribution" ++ " is not supported.")) :=
  ⟨by decide, c6_generate_unsupported_raises sampleEnv [1, 2, 3]
    "not_a_real_distribution" (by decide)⟩

/-- C7: the key set of the distribution registry `DISTRIBUTIONS` equals the
key set of the dispatch table `DistGen.__GENERATORS` — both are exactly
{normal, chi2, exponential, gamma, logistic, uniform}, so every registered
distribution has a matching generator and vice versa. -/
theorem c7_registry_generator_keys_align (k : String) :
    k ∈ DISTRIBUTIONS.map Prod.fst ↔ k ∈ DistGen.GENERATORS.map Prod.fst :=
  Iff.rfl

/-- C10: for every name registered in the dispatch table, the dispatcher
returns exactly what the corresponding module-level generator function
returns on the same data under the same library state: the dispatcher layer
adds no transformation, filtering or post-processing.  (The hypothesis that
the generator's outcome is not a KeyError reflects that the dispatcher's
except clause would repackage a KeyError escaping the generator; for
registered names the generator's own registry lookup always succeeds, so
such a KeyError could only come from inside the external library.) -/
theorem c10_dispatcher_applies_generator (env : ScipyEnv) (data : List ℚ)
    (d : String) (g : ScipyEnv → List ℚ → Except PyError (List ℚ))
    (hg : DistGen.GENERATORS.lookup d = some g)
    (hk : ∀ k, g env data ≠ .error (.keyError k)) :
    DistGen.call env data d = g env data := by
  unfold DistGen.call
  rw [hg]
  show rewrap d (g env data) = g env data
  cases hge : g env data with
  | ok r => rfl
  | error e =>
      cases e with
      | keyError k => exact absurd hge (hk k)
      | attributeError m => rfl
      | valueError m => rfl
      | notImplementedError m => rfl
      | fitError m => rfl

/-- C10 witness: dispatching "normal" equals calling the module-level
`normal` generator directly, under the benign library behaviour. -/
theorem c10_dispatcher_applies_generator_witness :
    DistGen.call sampleEnv [1, 2, 3] "normal" = normal sampleEnv [1, 2, 3] :=
  c10_dispatcher_applies_generator sampleEnv [1, 2, 3] "normal" normal rfl
    (fun k hk => by
      rw [show normal sampleEnv [1, 2, 3] = Except.ok [0, 0, 0] from rfl] at hk
      exact Except.noConfusion hk)

/-- C8: for the sample s = [1, 2, 3, 4, 5] with distribution "uniform",
under the spec-modelled maximum-likelihood fit of the uniform family
(`uniformFit`: location = min, scale = max − min, since scipy's fit routine
is external to src/), `get_params` yields the parameter tuple (1, 4) with
1 = min(s) and 4 = max(s) − min(s); and for any sampling routine that
respects the uniform family's support [loc, loc + scale], every variate the
dispatcher returns lies within [min(s), max(s)] = [1, 5]. -/
theorem c8_uniform_scenario (rvsImpl : String → List ℚ → Nat → List ℚ)
    (out : List ℚ)
    (hsupp : ∀ loc scale n v, v ∈ rvsImpl "uniform" [loc, scale] n →
      loc ≤ v ∧ v ≤ loc + scale)
    (h : DistGen.call (uniformEnv rvsImpl) [1, 2, 3, 4, 5] "uniform" = .ok out) :
    get_params (uniformEnv rvsImpl) [1, 2, 3, 4, 5] "uniform" = .ok [1, 4]
    ∧ listMin [1, 2, 3, 4, 5] = 1
    ∧ listMax [1, 2, 3, 4, 5] - listMin [1, 2, 3, 4, 5] = 4
    ∧ ∀ v ∈ out, 1 ≤ v ∧ v ≤ 5 := by
  have hmin : listMin [1, 2, 3, 4, 5] = (1 : ℚ) := by
    norm_num [listMin, List.foldl, min_def]
  have hmax : listMax [1, 2, 3, 4, 5] = (5 : ℚ) := by
    norm_num [listMax, List.foldl, max_def]
  have hfit : uniformFit [1, 2, 3, 4, 5] = [(1 : ℚ), 4] := by
    rw [uniformFit, hmin, hmax]; norm_num
  have h2 : Except.ok (rvsImpl "uniform" (uniformFit [1, 2, 3, 4, 5]) 5) =
      Except.ok out := h
  injection h2 with hout
  refine ⟨?_, hmin, by rw [hmin, hmax]; norm_num, ?_⟩
  · show Except.ok (uniformFit [1, 2, 3, 4, 5]) =
      Except.ok ([(1 : ℚ), 4] : List ℚ)
    rw [hfit]
  · intro v hv
    rw [← hout, hfit] at hv
    obtain ⟨h1, h5⟩ := hsupp 1 4 5 v hv
    exact ⟨h1, by linarith⟩

/-- C8 witness: the scenario applied to a degenerate sampling routine that
returns no variates (for which the support condition holds vacuously). -/
theorem c8_uniform_scenario_witness :
    get_params (uniformEnv fun _ _ _ => []) [1, 2, 3, 4, 5] "uniform" = .ok [1, 4]
    ∧ listMin [1, 2, 3, 4, 5] = 1
    ∧ listMax [1, 2, 3, 4, 5] - listMin [1, 2, 3, 4, 5] = 4
    ∧ ∀ v ∈ ([] : List ℚ), 1 ≤ v ∧ v ≤ 5 :=
  c8_uniform_scenario (fun _ _ _ => []) []
    (fun _ _ _ v hv => absurd hv (List.not_mem_nil v)) rfl

end Stats
